import Mathlib

/-!
Shallow embedding of the SEF carbon calculator (src/app.py and
src/app_original.py).

The engine consists of: a schema check on the loaded factor table
(`required_cols` / `missing`), the emission-factor lookup `ef`
(sequential equality filters over the table, first matching row,
Python `float()` conversion of the `factor` cell), and a straight-line
calculation block producing the exported result record
(`results_kgco2e`).  Python float values are modelled exactly: a
`PyFloat` is a finite rational, an infinity, or a NaN; finite
arithmetic is exact rational arithmetic, and the special values follow
Python semantics for `+`, `*` and `float(...)` conversion.  Errors
(`ValueError` raised by `ef`, the schema failure) are modelled with
`Except`.
-/

/-- Model of a Python float value: a finite (exact) rational, one of the
two infinities, or NaN. -/
inductive PyFloat where
  | finite (q : ℚ)
  | pinf
  | ninf
  | nan
deriving DecidableEq

/-- Negation of a Python float (used for the sign in `float(...)` parsing). -/
def PyFloat.neg : PyFloat → PyFloat
  | .finite q => .finite (-q)
  | .pinf => .ninf
  | .ninf => .pinf
  | .nan => .nan

/-- Addition of Python floats: exact on finite values, Python/IEEE rules
for infinities and NaN. -/
def PyFloat.add : PyFloat → PyFloat → PyFloat
  | .nan, _ => .nan
  | _, .nan => .nan
  | .finite a, .finite b => .finite (a + b)
  | .finite _, .pinf => .pinf
  | .pinf, .finite _ => .pinf
  | .finite _, .ninf => .ninf
  | .ninf, .finite _ => .ninf
  | .pinf, .pinf => .pinf
  | .ninf, .ninf => .ninf
  | .pinf, .ninf => .nan
  | .ninf, .pinf => .nan

/-- Multiplication of Python floats: exact on finite values, Python/IEEE
rules for infinities and NaN (in particular `0 * inf = nan`). -/
def PyFloat.mul : PyFloat → PyFloat → PyFloat
  | .nan, _ => .nan
  | _, .nan => .nan
  | .finite a, .finite b => .finite (a * b)
  | .finite a, .pinf => if 0 < a then .pinf else if a < 0 then .ninf else .nan
  | .finite a, .ninf => if 0 < a then .ninf else if a < 0 then .pinf else .nan
  | .pinf, .finite b => if 0 < b then .pinf else if b < 0 then .ninf else .nan
  | .ninf, .finite b => if 0 < b then .ninf else if b < 0 then .pinf else .nan
  | .pinf, .pinf => .pinf
  | .pinf, .ninf => .ninf
  | .ninf, .pinf => .ninf
  | .ninf, .ninf => .pinf

/-- Division of a Python float by a positive rational (the source only
divides `total / fte` under the guard `fte > 0`). -/
def PyFloat.divPos : PyFloat → ℚ → PyFloat
  | .finite a, q => .finite (a / q)
  | .pinf, _ => .pinf
  | .ninf, _ => .ninf
  | .nan, _ => .nan

instance : Add PyFloat := ⟨PyFloat.add⟩

instance : Zero PyFloat := ⟨PyFloat.finite 0⟩

instance : AddCommMonoid PyFloat where
  add_assoc a b c := by
    show (a.add b).add c = a.add (b.add c)
    cases a <;> cases b <;> cases c <;> simp [PyFloat.add, add_assoc]
  zero_add a := by
    show (PyFloat.finite 0).add a = a
    cases a <;> simp [PyFloat.add]
  add_zero a := by
    show a.add (PyFloat.finite 0) = a
    cases a <;> simp [PyFloat.add]
  add_comm a b := by
    show a.add b = b.add a
    cases a <;> cases b <;> simp [PyFloat.add, add_comm]
  nsmul := nsmulRec
  nsmul_zero _ := rfl
  nsmul_succ _ _ := rfl

/-- Whether a Python float value is finite (neither an infinity nor NaN). -/
def PyFloat.isFinite : PyFloat → Bool
  | .finite _ => true
  | _ => false

/-- Drop leading whitespace characters from a character list. -/
def dropWs : List Char → List Char
  | [] => []
  | c :: cs => if c.isWhitespace then dropWs cs else c :: cs

/-- Strip leading and trailing whitespace, as Python `float(...)` does
before parsing. -/
def trimWs (cs : List Char) : List Char :=
  (dropWs ((dropWs cs).reverse)).reverse

/-- Lower-case the ASCII letters that can occur in an accepted Python
float literal (the words inf, infinity, nan and the exponent marker);
all other characters are returned unchanged (they make the parse fail
whatever their case). -/
def asciiLower (c : Char) : Char :=
  if c = 'I' then 'i'
  else if c = 'N' then 'n'
  else if c = 'F' then 'f'
  else if c = 'T' then 't'
  else if c = 'Y' then 'y'
  else if c = 'A' then 'a'
  else if c = 'E' then 'e'
  else c

/-- Numeric value of a list of decimal digit characters. -/
def digitsVal (ds : List Char) : ℕ :=
  ds.foldl (fun a c => 10 * a + (c.toNat - 48)) 0

/-- Split a character list into its maximal leading run of decimal
digits and the remainder. -/
def splitDigits : List Char → List Char × List Char
  | [] => ([], [])
  | c :: cs =>
    if c.isDigit then
      let p := splitDigits cs
      (c :: p.1, p.2)
    else ([], c :: cs)

/-- Ten to a natural power, as a rational. -/
def pow10 (n : ℕ) : ℚ := ((10 ^ n : ℕ) : ℚ)

/-- Parse the mantissa of a float literal: digits with an optional
fractional part; at least one digit must be present.  Returns the value
and the unconsumed remainder. -/
def parseMantissa (cs : List Char) : Option (ℚ × List Char) :=
  let ip := splitDigits cs
  match ip.2 with
  | '.' :: r2 =>
    let fp := splitDigits r2
    if ip.1.isEmpty && fp.1.isEmpty then none
    else some ((digitsVal ip.1 : ℚ) + (digitsVal fp.1 : ℚ) / pow10 fp.1.length, fp.2)
  | r1 => if ip.1.isEmpty then none else some ((digitsVal ip.1 : ℚ), r1)

/-- Parse the optional exponent suffix of a float literal (after
lower-casing): empty means exponent 0; otherwise `e`, an optional sign
and a nonempty digit run consuming the whole remainder.  Returns the
sign (true for negative) and the exponent magnitude. -/
def parseExp (cs : List Char) : Option (Bool × ℕ) :=
  match cs with
  | [] => some (false, 0)
  | 'e' :: r =>
    match r with
    | '+' :: ds =>
      if !ds.isEmpty && ds.all Char.isDigit then some (false, digitsVal ds) else none
    | '-' :: ds =>
      if !ds.isEmpty && ds.all Char.isDigit then some (true, digitsVal ds) else none
    | ds =>
      if !ds.isEmpty && ds.all Char.isDigit then some (false, digitsVal ds) else none
  | _ => none

/-- Apply a parsed exponent to a mantissa value. -/
def applyExp (m : ℚ) (neg : Bool) (e : ℕ) : ℚ :=
  if neg then m / pow10 e else m * pow10 e

/-- Parse an unsigned Python float literal: the special words inf,
infinity and nan, or a decimal mantissa with optional exponent. -/
def parseSignless (cs : List Char) : Option PyFloat :=
  if cs = ['i', 'n', 'f'] ∨ cs = ['i', 'n', 'f', 'i', 'n', 'i', 't', 'y'] then
    some .pinf
  else if cs = ['n', 'a', 'n'] then
    some .nan
  else
    match parseMantissa cs with
    | none => none
    | some mr =>
      match parseExp mr.2 with
      | none => none
      | some se => some (.finite (applyExp mr.1 se.1 se.2))

/-- Parse an optionally signed Python float literal. -/
def parseSigned (cs : List Char) : Option PyFloat :=
  match cs with
  | '+' :: r => parseSignless r
  | '-' :: r => (parseSignless r).map PyFloat.neg
  | r => parseSignless r

/-- Model of Python `float(s)` on a string cell of the factor table:
strips surrounding whitespace, is case-insensitive on the special
words, accepts decimal literals with optional sign, fraction and
exponent, and the non-finite values inf/infinity/nan.  Returns `none`
where Python raises `ValueError` (digit-group underscores are not
modelled). -/
def parsePyFloat (s : String) : Option PyFloat :=
  parseSigned (trimWs (s.toList.map asciiLower))

/-- One row of the loaded emission-factor table
(`nga_factors_2024.csv`); all cells are kept as raw strings, an empty
cell being the empty string. -/
structure Row where
  category : String
  subcategory : String
  unit : String
  factor : String
  state : String
  source : String
  source_year : String
deriving DecidableEq

/-- The structured content of the `ValueError`s raised by `ef` in the
source: either no row matched the requested key, or the matched row's
factor cell failed `float(...)` conversion (the raw cell value is
carried along with the key). -/
inductive EfError where
  | notFound (category : String) (subcategory : Option String) (state : Option String)
  | invalidFactor (category : String) (subcategory : Option String) (state : Option String)
      (raw : String)
deriving DecidableEq

/-- The required column list checked after loading the table
(`required_cols` in the source). -/
def required_cols : List String :=
  ["category", "subcategory", "unit", "factor", "state", "source", "source_year"]

/-- The schema failure reported when required columns are absent,
carrying the list of missing column names. -/
structure SchemaError where
  missing : List String
deriving DecidableEq

/-- The list `missing = [c for c in required_cols if c not in factors.columns]`
from the source. -/
def missingCols (columns : List String) : List String :=
  required_cols.filter (fun c => !(columns.contains c))

/-- The load-time schema gate: if any required column is missing the
script reports the missing columns and stops (`st.stop()`); otherwise
the rows are available for computation. -/
def loadFactors (columns : List String) (rows : List Row) : Except SchemaError (List Row) :=
  if missingCols columns ≠ [] then .error ⟨missingCols columns⟩ else .ok rows

/-- The candidate rows examined by `ef`: sequential equality filters on
category, then subcategory (skipped when the caller passes no value),
then state (likewise), preserving table order. -/
def efCandidates (factors : List Row) (category : String) (subcategory : Option String)
    (state : Option String) : List Row :=
  let df1 := factors.filter (fun r => r.category == category)
  let df2 :=
    match subcategory with
    | none => df1
    | some s => df1.filter (fun r => r.subcategory == s)
  match state with
  | none => df2
  | some s => df2.filter (fun r => r.state == s)

/-- The emission-factor lookup `ef(category, subcategory=None, state=None)`
from the source: filter, fail if nothing matched, take the first row
(`df.iloc[0]`), convert its factor cell with `float(...)`, failing on
conversion error. -/
def ef (factors : List Row) (category : String) (subcategory : Option String)
    (state : Option String) : Except EfError PyFloat :=
  match efCandidates factors category subcategory state with
  | [] => .error (.notFound category subcategory state)
  | r :: _ =>
    match parsePyFloat r.factor with
    | some v => .ok v
    | none => .error (.invalidFactor category subcategory state r.factor)

/-- Single-predicate form of `ef`'s row filter: exact string equality on
the category and on whichever of subcategory/state the caller supplied. -/
def matchesRow (r : Row) (category : String) (subcategory : Option String)
    (state : Option String) : Bool :=
  (r.category == category)
    && (match subcategory with | none => true | some s => r.subcategory == s)
    && (match state with | none => true | some s => r.state == s)

/-- The activity quantities read from the input widgets (all constrained
nonnegative by the UI, a constraint not needed by the theorems below),
together with the selected state and the FTE headcount. -/
structure ActivityInput where
  state : String
  fte : ℚ
  elec_kwh : ℚ
  iso_g : ℚ
  sev_g : ℚ
  des_g : ℚ
  n2o_g : ℚ
  lpg_L : ℚ
  natgas_MJ : ℚ
  petrol_L : ℚ
  diesel_L : ℚ
deriving DecidableEq

/-- The exported result record of src/app.py (the `results_kgco2e`
dictionary): per-group scope-1 subtotals, scope-1 total, scope-2
electricity, grand total and intensity per FTE. -/
structure EmissionResult where
  scope1_anaes : PyFloat
  scope1_gas : PyFloat
  scope1_vehicles : PyFloat
  scope1_total : PyFloat
  scope2_electricity : PyFloat
  total : PyFloat
  intensity_per_fte : PyFloat
deriving DecidableEq

/-- The calculation block of src/app.py (lines 139-161): nine factor
lookups in source order, each quantity multiplied by its looked-up
factor, group sums, scope totals, grand total, and the guarded
intensity (`total / fte if fte > 0 else 0.0`).  Any lookup failure
aborts the whole block (the `try`/`st.stop()` wrapper). -/
def compute (factors : List Row) (inp : ActivityInput) : Except EfError EmissionResult :=
  (ef factors "electricity" none (some inp.state)).bind fun f_elec =>
  (ef factors "anaes" (some "isoflurane_g") none).bind fun f_iso =>
  (ef factors "anaes" (some "sevoflurane_g") none).bind fun f_sev =>
  (ef factors "anaes" (some "desflurane_g") none).bind fun f_des =>
  (ef factors "anaes" (some "n2o_g") none).bind fun f_n2o =>
  (ef factors "fuel" (some "lpg_L") none).bind fun f_lpg =>
  (ef factors "fuel" (some "natural_gas_MJ") none).bind fun f_ng =>
  (ef factors "fuel" (some "petrol_L") none).bind fun f_pet =>
  (ef factors "fuel" (some "diesel_L") none).bind fun f_dsl =>
  let scope2_elec := (PyFloat.finite inp.elec_kwh).mul f_elec
  let scope1_anaes :=
    ((((PyFloat.finite inp.iso_g).mul f_iso).add
        ((PyFloat.finite inp.sev_g).mul f_sev)).add
      ((PyFloat.finite inp.des_g).mul f_des)).add
    ((PyFloat.finite inp.n2o_g).mul f_n2o)
  let scope1_gas :=
    ((PyFloat.finite inp.lpg_L).mul f_lpg).add
    ((PyFloat.finite inp.natgas_MJ).mul f_ng)
  let scope1_vehicles :=
    ((PyFloat.finite inp.petrol_L).mul f_pet).add
    ((PyFloat.finite inp.diesel_L).mul f_dsl)
  let scope1_total := (scope1_anaes.add scope1_gas).add scope1_vehicles
  let total := scope1_total.add scope2_elec
  let intensity := if 0 < inp.fte then total.divPos inp.fte else PyFloat.finite 0
  .ok ⟨scope1_anaes, scope1_gas, scope1_vehicles, scope1_total, scope2_elec, total, intensity⟩

/-- The exported result record of src/app_original.py (`results_kgco2e`):
fuels subtotal, anaesthetics subtotal, scope-1 total, scope-2
electricity, grand total and intensity per FTE. -/
structure EmissionResultO where
  scope1_fuels : PyFloat
  scope1_anaes : PyFloat
  scope1_total : PyFloat
  scope2_electricity : PyFloat
  total : PyFloat
  intensity_per_fte : PyFloat
deriving DecidableEq

/-- The calculation block of src/app_original.py (lines 148-166): the
electricity and four fuel lookups in source order, then the
anaesthetics subtotal, which is the literal `0.0` when `use_anaes` is
false and performs its four lookups only when `use_anaes` is true. -/
def computeOriginal (factors : List Row) (inp : ActivityInput) (use_anaes : Bool) :
    Except EfError EmissionResultO :=
  (ef factors "electricity" none (some inp.state)).bind fun f_elec =>
  (ef factors "fuel" (some "petrol_L") none).bind fun f_pet =>
  (ef factors "fuel" (some "diesel_L") none).bind fun f_dsl =>
  (ef factors "fuel" (some "lpg_L") none).bind fun f_lpg =>
  (ef factors "fuel" (some "natural_gas_MJ") none).bind fun f_ng =>
  (if use_anaes then
    (ef factors "anaes" (some "isoflurane_g") none).bind fun f_iso =>
    (ef factors "anaes" (some "sevoflurane_g") none).bind fun f_sev =>
    (ef factors "anaes" (some "desflurane_g") none).bind fun f_des =>
    (ef factors "anaes" (some "n2o_g") none).bind fun f_n2o =>
    .ok (((((PyFloat.finite inp.iso_g).mul f_iso).add
            ((PyFloat.finite inp.sev_g).mul f_sev)).add
          ((PyFloat.finite inp.des_g).mul f_des)).add
        ((PyFloat.finite inp.n2o_g).mul f_n2o))
  else
    .ok (PyFloat.finite 0)).bind fun scope1_anaes =>
  let scope2 := (PyFloat.finite inp.elec_kwh).mul f_elec
  let scope1_fuels :=
    ((((PyFloat.finite inp.petrol_L).mul f_pet).add
        ((PyFloat.finite inp.diesel_L).mul f_dsl)).add
      ((PyFloat.finite inp.lpg_L).mul f_lpg)).add
    ((PyFloat.finite inp.natgas_MJ).mul f_ng)
  let scope1 := scope1_fuels.add scope1_anaes
  let total := scope1.add scope2
  let intensity := if 0 < inp.fte then total.divPos inp.fte else PyFloat.finite 0
  .ok ⟨scope1_fuels, scope1_anaes, scope1, scope2, total, intensity⟩

/-- The nine (category, subcategory, state) keys looked up by the
calculation block of src/app.py, in source order. -/
def allKeys (state : String) : List (String × Option String × Option String) :=
  [("electricity", none, some state),
   ("anaes", some "isoflurane_g", none),
   ("anaes", some "sevoflurane_g", none),
   ("anaes", some "desflurane_g", none),
   ("anaes", some "n2o_g", none),
   ("fuel", some "lpg_L", none),
   ("fuel", some "natural_gas_MJ", none),
   ("fuel", some "petrol_L", none),
   ("fuel", some "diesel_L", none)]

/-- The five keys looked up by src/app_original.py when the anaesthetics
group is excluded. -/
def nonAnaesKeys (state : String) : List (String × Option String × Option String) :=
  [("electricity", none, some state),
   ("fuel", some "petrol_L", none),
   ("fuel", some "diesel_L", none),
   ("fuel", some "lpg_L", none),
   ("fuel", some "natural_gas_MJ", none)]

/-- Lookup by key triple. -/
def efKey (factors : List Row) (k : String × Option String × Option String) :
    Except EfError PyFloat :=
  ef factors k.1 k.2.1 k.2.2

/-- Left fold of Python float addition starting from 0.0, the "sum of
line contributions" used to state the aggregation properties. -/
def sumPF (l : List PyFloat) : PyFloat :=
  l.foldl PyFloat.add (PyFloat.finite 0)

/-- Row constructor with fixed provenance cells (provenance is not used
by any computation). -/
def mkRow (category subcategory unit factor state : String) : Row :=
  ⟨category, subcategory, unit, factor, state, "src", "2024"⟩

/-- A complete concrete factor table: the spec's electricity row
(factor 0.79, state NSW) and a factor of 1 for every other key. -/
def demoTable : List Row :=
  [mkRow "electricity" "" "kWh" "0.79" "NSW",
   mkRow "anaes" "isoflurane_g" "g" "1" "",
   mkRow "anaes" "sevoflurane_g" "g" "1" "",
   mkRow "anaes" "desflurane_g" "g" "1" "",
   mkRow "anaes" "n2o_g" "g" "1" "",
   mkRow "fuel" "lpg_L" "L" "1" "",
   mkRow "fuel" "natural_gas_MJ" "MJ" "1" "",
   mkRow "fuel" "petrol_L" "L" "1" "",
   mkRow "fuel" "diesel_L" "L" "1" ""]

/-- The spec's electricity scenario input: region NSW, 1000 kWh, all
other quantities zero, 10 FTE. -/
def demoInput : ActivityInput :=
  ⟨"NSW", 10, 1000, 0, 0, 0, 0, 0, 0, 0, 0⟩

/-- The result record of `compute demoTable demoInput`. -/
def demoResult : EmissionResult :=
  ⟨PyFloat.finite 0, PyFloat.finite 0, PyFloat.finite 0, PyFloat.finite 0,
   PyFloat.finite 790, PyFloat.finite 790, PyFloat.finite 79⟩

/-- The result record of `computeOriginal demoTable demoInput true`. -/
def demoResultO : EmissionResultO :=
  ⟨PyFloat.finite 0, PyFloat.finite 0, PyFloat.finite 0,
   PyFloat.finite 790, PyFloat.finite 790, PyFloat.finite 79⟩

/-- An activity input with every quantity zero (the given state and FTE). -/
def zeroQuantities (state : String) (fte : ℚ) : ActivityInput :=
  ⟨state, fte, 0, 0, 0, 0, 0, 0, 0, 0, 0⟩

/-- The all-zero emission result record. -/
def zeroResult : EmissionResult :=
  ⟨PyFloat.finite 0, PyFloat.finite 0, PyFloat.finite 0, PyFloat.finite 0,
   PyFloat.finite 0, PyFloat.finite 0, PyFloat.finite 0⟩

/-- A table whose only row has the factor cell "inf", which Python
`float(...)` converts to infinity without an error. -/
def infTable : List Row :=
  [mkRow "fuel" "petrol_L" "L" "inf" ""]

/-- A table whose only row has the malformed factor cell "N/A". -/
def naTable : List Row :=
  [mkRow "fuel" "petrol_L" "L" "N/A" ""]

/-- A table containing a petrol row but no diesel_L row. -/
def missTable : List Row :=
  [mkRow "fuel" "petrol_L" "L" "1" ""]

/-- A table with two electricity rows for the same state NSW carrying
different factors (0.79 first, 1 second). -/
def dupTable : List Row :=
  [mkRow "electricity" "" "kWh" "0.79" "NSW",
   mkRow "electricity" "" "kWh" "1" "NSW"]

/-- demoTable with the diesel_L row removed. -/
def badTable : List Row :=
  [mkRow "electricity" "" "kWh" "0.79" "NSW",
   mkRow "anaes" "isoflurane_g" "g" "1" "",
   mkRow "anaes" "sevoflurane_g" "g" "1" "",
   mkRow "anaes" "desflurane_g" "g" "1" "",
   mkRow "anaes" "n2o_g" "g" "1" "",
   mkRow "fuel" "lpg_L" "L" "1" "",
   mkRow "fuel" "natural_gas_MJ" "MJ" "1" "",
   mkRow "fuel" "petrol_L" "L" "1" ""]

/-- A table with the electricity and fuel rows but no anaes rows at all. -/
def noAnaesTable : List Row :=
  [mkRow "electricity" "" "kWh" "0.79" "NSW",
   mkRow "fuel" "petrol_L" "L" "1" "",
   mkRow "fuel" "diesel_L" "L" "1" "",
   mkRow "fuel" "lpg_L" "L" "1" "",
   mkRow "fuel" "natural_gas_MJ" "MJ" "1" ""]

/-- A column set missing the required column "factor" but carrying two
extra columns. -/
def schemaColumns : List String :=
  ["category", "subcategory", "unit", "state", "source", "source_year",
   "extra_a", "extra_b"]

/-- Inversion of a successful `Except.bind`. -/
theorem bindEqOk {α β : Type} (x : Except EfError α) (f : α → Except EfError β) (b : β) :
    x.bind f = Except.ok b ↔ ∃ a, x = Except.ok a ∧ f a = Except.ok b := by
  cases x <;> simp [Except.bind]

/-- Inversion of a failing `Except.bind`. -/
theorem bindEqError {α β : Type} (x : Except EfError α) (f : α → Except EfError β)
    (e : EfError) :
    x.bind f = Except.error e ↔
      x = Except.error e ∨ ∃ a, x = Except.ok a ∧ f a = Except.error e := by
  cases x <;> simp [Except.bind]

/-- Bridge between the source-level addition and the monoid notation. -/
theorem PyFloat.add_def (a b : PyFloat) : a.add b = a + b := rfl

/-- Bridge between the source-level zero and the monoid notation. -/
theorem PyFloat.zero_def : PyFloat.finite 0 = 0 := rfl

/-- The three sequential filters of `ef` compute exactly the single-pass
filter by `matchesRow`: exact string equality on each supplied field,
the subcategory and state filters being skipped when no value is
passed. -/
theorem efCandidates_eq (factors : List Row) (cat : String) (sub st : Option String) :
    efCandidates factors cat sub st = factors.filter (fun r => matchesRow r cat sub st) := by
  cases sub <;> cases st <;>
    simp only [efCandidates, matchesRow, List.filter_filter] <;>
    (apply List.filter_congr; intro r _) <;>
    cases hc : (r.category == cat) <;> simp [hc, Bool.and_comm]

/-- Inversion of a successful run of the src/app.py calculation block:
all nine lookups succeeded and every field of the result record is the
corresponding combination of quantities and looked-up factors. -/
theorem compute_ok_inv (factors : List Row) (inp : ActivityInput) (r : EmissionResult)
    (h : compute factors inp = .ok r) :
    ∃ fe fi fs fd fn fl fg fp fdl,
      ef factors "electricity" none (some inp.state) = .ok fe ∧
      ef factors "anaes" (some "isoflurane_g") none = .ok fi ∧
      ef factors "anaes" (some "sevoflurane_g") none = .ok fs ∧
      ef factors "anaes" (some "desflurane_g") none = .ok fd ∧
      ef factors "anaes" (some "n2o_g") none = .ok fn ∧
      ef factors "fuel" (some "lpg_L") none = .ok fl ∧
      ef factors "fuel" (some "natural_gas_MJ") none = .ok fg ∧
      ef factors "fuel" (some "petrol_L") none = .ok fp ∧
      ef factors "fuel" (some "diesel_L") none = .ok fdl ∧
      r.scope1_anaes =
        ((((PyFloat.finite inp.iso_g).mul fi).add
            ((PyFloat.finite inp.sev_g).mul fs)).add
          ((PyFloat.finite inp.des_g).mul fd)).add
        ((PyFloat.finite inp.n2o_g).mul fn) ∧
      r.scope1_gas =
        ((PyFloat.finite inp.lpg_L).mul fl).add
        ((PyFloat.finite inp.natgas_MJ).mul fg) ∧
      r.scope1_vehicles =
        ((PyFloat.finite inp.petrol_L).mul fp).add
        ((PyFloat.finite inp.diesel_L).mul fdl) ∧
      r.scope1_total = (r.scope1_anaes.add r.scope1_gas).add r.scope1_vehicles ∧
      r.scope2_electricity = (PyFloat.finite inp.elec_kwh).mul fe ∧
      r.total = r.scope1_total.add r.scope2_electricity ∧
      r.intensity_per_fte =
        (if 0 < inp.fte then r.total.divPos inp.fte else PyFloat.finite 0) := by
  simp only [compute, bindEqOk, Except.ok.injEq] at h
  obtain ⟨fe, hfe, fi, hfi, fs, hfs, fd, hfd, fn, hfn, fl, hfl, fg, hfg, fp, hfp,
    fdl, hfdl, hr⟩ := h
  subst hr
  exact ⟨fe, fi, fs, fd, fn, fl, fg, fp, fdl, hfe, hfi, hfs, hfd, hfn, hfl, hfg,
    hfp, hfdl, rfl, rfl, rfl, rfl, rfl, rfl, rfl⟩

/-- If the src/app.py calculation block fails, the failure is the error
of one of the nine lookups it performs. -/
theorem compute_error_inv (factors : List Row) (inp : ActivityInput) (e : EfError)
    (h : compute factors inp = .error e) :
    ∃ k ∈ allKeys inp.state, efKey factors k = .error e := by
  simp only [compute, bindEqError, bindEqOk] at h
  simp only [allKeys, efKey, List.mem_cons, List.not_mem_nil, or_false]
  rcases h with h | ⟨fe, hfe, h⟩
  · exact ⟨("electricity", none, some inp.state), by simp, h⟩
  rcases h with h | ⟨fi, hfi, h⟩
  · exact ⟨("anaes", some "isoflurane_g", none), by simp, h⟩
  rcases h with h | ⟨fs, hfs, h⟩
  · exact ⟨("anaes", some "sevoflurane_g", none), by simp, h⟩
  rcases h with h | ⟨fd, hfd, h⟩
  · exact ⟨("anaes", some "desflurane_g", none), by simp, h⟩
  rcases h with h | ⟨fn, hfn, h⟩
  · exact ⟨("anaes", some "n2o_g", none), by simp, h⟩
  rcases h with h | ⟨fl, hfl, h⟩
  · exact ⟨("fuel", some "lpg_L", none), by simp, h⟩
  rcases h with h | ⟨fg, hfg, h⟩
  · exact ⟨("fuel", some "natural_gas_MJ", none), by simp, h⟩
  rcases h with h | ⟨fp, hfp, h⟩
  · exact ⟨("fuel", some "petrol_L", none), by simp, h⟩
  rcases h with h | ⟨fdl, hfdl, h⟩
  · exact ⟨("fuel", some "diesel_L", none), by simp, h⟩
  · exact absurd h (by simp)

/-- If every one of the nine keys looks up successfully, the src/app.py
calculation block succeeds. -/
theorem compute_ok_of_lookups (factors : List Row) (inp : ActivityInput)
    (h : ∀ k ∈ allKeys inp.state, ∃ v, efKey factors k = .ok v) :
    ∃ r, compute factors inp = .ok r := by
  cases hc : compute factors inp with
  | ok r => exact ⟨r, rfl⟩
  | error e =>
    obtain ⟨k, hk, he⟩ := compute_error_inv factors inp e hc
    obtain ⟨v, hv⟩ := h k hk
    rw [hv] at he
    exact absurd he (by simp)

/-- Inversion of a successful run of the src/app_original.py calculation
block with the anaesthetics checkbox ticked: the same nine lookups
succeed and the result fields are the source's combinations. -/
theorem computeOriginal_true_ok_inv (factors : List Row) (inp : ActivityInput)
    (r : EmissionResultO) (h : computeOriginal factors inp true = .ok r) :
    ∃ fe fp fdl fl fg fi fs fd fn,
      ef factors "electricity" none (some inp.state) = .ok fe ∧
      ef factors "fuel" (some "petrol_L") none = .ok fp ∧
      ef factors "fuel" (some "diesel_L") none = .ok fdl ∧
      ef factors "fuel" (some "lpg_L") none = .ok fl ∧
      ef factors "fuel" (some "natural_gas_MJ") none = .ok fg ∧
      ef factors "anaes" (some "isoflurane_g") none = .ok fi ∧
      ef factors "anaes" (some "sevoflurane_g") none = .ok fs ∧
      ef factors "anaes" (some "desflurane_g") none = .ok fd ∧
      ef factors "anaes" (some "n2o_g") none = .ok fn ∧
      r.scope1_fuels =
        ((((PyFloat.finite inp.petrol_L).mul fp).add
            ((PyFloat.finite inp.diesel_L).mul fdl)).add
          ((PyFloat.finite inp.lpg_L).mul fl)).add
        ((PyFloat.finite inp.natgas_MJ).mul fg) ∧
      r.scope1_anaes =
        ((((PyFloat.finite inp.iso_g).mul fi).add
            ((PyFloat.finite inp.sev_g).mul fs)).add
          ((PyFloat.finite inp.des_g).mul fd)).add
        ((PyFloat.finite inp.n2o_g).mul fn) ∧
      r.scope1_total = r.scope1_fuels.add r.scope1_anaes ∧
      r.scope2_electricity = (PyFloat.finite inp.elec_kwh).mul fe ∧
      r.total = r.scope1_total.add r.scope2_electricity ∧
      r.intensity_per_fte =
        (if 0 < inp.fte then r.total.divPos inp.fte else PyFloat.finite 0) := by
  simp only [computeOriginal, if_true, bindEqOk, Except.ok.injEq] at h
  obtain ⟨fe, hfe, fp, hfp, fdl, hfdl, fl, hfl, fg, hfg, sa, ⟨fi, hfi, fs, hfs, fd, hfd,
    fn, hfn, hsa⟩, hr⟩ := h
  subst hr
  subst hsa
  exact ⟨fe, fp, fdl, fl, fg, fi, fs, fd, fn, hfe, hfp, hfdl, hfl, hfg, hfi, hfs,
    hfd, hfn, rfl, rfl, rfl, rfl, rfl, rfl⟩

/-- Filtering the table by a predicate that keeps every row of a given
category leaves the candidate list of any lookup on that category
unchanged. -/
theorem efCandidates_filter_indep (factors : List Row) (cat : String) (sub st : Option String)
    (p : Row → Bool) (hp : ∀ r : Row, (r.category == cat) = true → p r = true) :
    efCandidates (factors.filter p) cat sub st = efCandidates factors cat sub st := by
  rw [efCandidates_eq, efCandidates_eq, List.filter_filter]
  apply List.filter_congr
  intro r _
  cases hm : matchesRow r cat sub st with
  | false => simp [hm]
  | true =>
    have hc : (r.category == cat) = true := by
      have := hm
      simp only [matchesRow, Bool.and_eq_true] at this
      exact this.1.1
    simp [hm, hp r hc]

/-- Lookups on a category are unaffected by deleting the rows of a
different category from the table. -/
theorem ef_filter_indep (factors : List Row) (cat : String) (sub st : Option String)
    (p : Row → Bool) (hp : ∀ r : Row, (r.category == cat) = true → p r = true) :
    ef (factors.filter p) cat sub st = ef factors cat sub st := by
  have h := efCandidates_filter_indep factors cat sub st p hp
  simp only [ef, h]

/-- If the src/app_original.py calculation block with the anaesthetics
checkbox off fails, the failure is the error of one of the five
non-anaesthetic lookups. -/
theorem computeOriginal_false_error_inv (factors : List Row) (inp : ActivityInput)
    (e : EfError) (h : computeOriginal factors inp false = .error e) :
    ∃ k ∈ nonAnaesKeys inp.state, efKey factors k = .error e := by
  simp only [computeOriginal, Bool.false_eq_true, if_false, bindEqError, bindEqOk,
    Except.ok.injEq] at h
  simp only [nonAnaesKeys, efKey, List.mem_cons, List.not_mem_nil, or_false]
  rcases h with h | ⟨fe, hfe, h⟩
  · exact ⟨("electricity", none, some inp.state), by simp, h⟩
  rcases h with h | ⟨fp, hfp, h⟩
  · exact ⟨("fuel", some "petrol_L", none), by simp, h⟩
  rcases h with h | ⟨fdl, hfdl, h⟩
  · exact ⟨("fuel", some "diesel_L", none), by simp, h⟩
  rcases h with h | ⟨fl, hfl, h⟩
  · exact ⟨("fuel", some "lpg_L", none), by simp, h⟩
  rcases h with h | ⟨fg, hfg, h⟩
  · exact ⟨("fuel", some "natural_gas_MJ", none), by simp, h⟩
  rcases h with h | ⟨sa, hsa, h⟩
  · exact absurd h (by simp)
  · exact absurd h (by simp)

/-- Inversion of a successful run of the src/app_original.py block with
the anaesthetics checkbox off: the five non-anaesthetic lookups succeed,
the anaesthetics subtotal is the literal 0.0, and the other fields are
the source's combinations. -/
theorem computeOriginal_false_ok_inv (factors : List Row) (inp : ActivityInput)
    (r : EmissionResultO) (h : computeOriginal factors inp false = .ok r) :
    ∃ fe fp fdl fl fg,
      ef factors "electricity" none (some inp.state) = .ok fe ∧
      ef factors "fuel" (some "petrol_L") none = .ok fp ∧
      ef factors "fuel" (some "diesel_L") none = .ok fdl ∧
      ef factors "fuel" (some "lpg_L") none = .ok fl ∧
      ef factors "fuel" (some "natural_gas_MJ") none = .ok fg ∧
      r.scope1_anaes = PyFloat.finite 0 ∧
      r.scope1_fuels =
        ((((PyFloat.finite inp.petrol_L).mul fp).add
            ((PyFloat.finite inp.diesel_L).mul fdl)).add
          ((PyFloat.finite inp.lpg_L).mul fl)).add
        ((PyFloat.finite inp.natgas_MJ).mul fg) ∧
      r.scope1_total = r.scope1_fuels.add (PyFloat.finite 0) ∧
      r.scope2_electricity = (PyFloat.finite inp.elec_kwh).mul fe ∧
      r.total = r.scope1_total.add r.scope2_electricity := by
  simp only [computeOriginal, Bool.false_eq_true, if_false, bindEqOk,
    Except.ok.injEq] at h
  obtain ⟨fe, hfe, fp, hfp, fdl, hfdl, fl, hfl, fg, hfg, sa, hsa, hr⟩ := h
  subst hr
  subst hsa
  exact ⟨fe, fp, fdl, fl, fg, hfe, hfp, hfdl, hfl, hfg, rfl, rfl, rfl, rfl, rfl⟩

/-- Python float conversion of the cell "0.79". -/
theorem parse_079 : parsePyFloat "0.79" = some (PyFloat.finite (79 / 100)) := by
  have h1 : trimWs ("0.79".toList.map asciiLower) = ['0', '.', '7', '9'] := by decide
  have h2 : splitDigits ['0', '.', '7', '9'] = (['0'], '.' :: ['7', '9']) := by decide
  have h3 : splitDigits ['7', '9'] = (['7', '9'], []) := by decide
  unfold parsePyFloat
  rw [h1]
  simp +decide [parseSigned, parseSignless, parseMantissa, h2, h3,
    parseExp, applyExp, digitsVal, pow10]

/-- Python float conversion of the cell "1". -/
theorem parse_one : parsePyFloat "1" = some (PyFloat.finite 1) := by
  have h1 : trimWs ("1".toList.map asciiLower) = ['1'] := by decide
  have h2 : splitDigits ['1'] = (['1'], []) := by decide
  unfold parsePyFloat
  rw [h1]
  simp +decide [parseSigned, parseSignless, parseMantissa, h2,
    parseExp, applyExp, digitsVal, pow10]

/-- Python float conversion of the cell "inf" succeeds and yields
positive infinity, which is not a finite value. -/
theorem parse_inf : parsePyFloat "inf" = some PyFloat.pinf := by
  have h1 : trimWs ("inf".toList.map asciiLower) = ['i', 'n', 'f'] := by decide
  unfold parsePyFloat
  rw [h1]
  simp +decide [parseSigned, parseSignless]

/-- Python float conversion of the malformed cell "N/A" fails. -/
theorem parse_NA : parsePyFloat "N/A" = none := by
  have h1 : trimWs ("N/A".toList.map asciiLower) = ['n', '/', 'a'] := by decide
  have h2 : splitDigits ['n', '/', 'a'] = ([], ['n', '/', 'a']) := by decide
  unfold parsePyFloat
  rw [h1]
  simp +decide [parseSigned, parseSignless, parseMantissa, h2]

/-- Evaluation of the electricity lookup on demoTable. -/
theorem ef_demo_elec :
    ef demoTable "electricity" none (some "NSW") = .ok (PyFloat.finite (79 / 100)) := by
  simp +decide [ef, efCandidates, demoTable, mkRow, parse_079]

/-- Evaluation of the isoflurane lookup on demoTable. -/
theorem ef_demo_iso :
    ef demoTable "anaes" (some "isoflurane_g") none = .ok (PyFloat.finite 1) := by
  simp +decide [ef, efCandidates, demoTable, mkRow, parse_one]

/-- Evaluation of the sevoflurane lookup on demoTable. -/
theorem ef_demo_sev :
    ef demoTable "anaes" (some "sevoflurane_g") none = .ok (PyFloat.finite 1) := by
  simp +decide [ef, efCandidates, demoTable, mkRow, parse_one]

/-- Evaluation of the desflurane lookup on demoTable. -/
theorem ef_demo_des :
    ef demoTable "anaes" (some "desflurane_g") none = .ok (PyFloat.finite 1) := by
  simp +decide [ef, efCandidates, demoTable, mkRow, parse_one]

/-- Evaluation of the nitrous-oxide lookup on demoTable. -/
theorem ef_demo_n2o :
    ef demoTable "anaes" (some "n2o_g") none = .ok (PyFloat.finite 1) := by
  simp +decide [ef, efCandidates, demoTable, mkRow, parse_one]

/-- Evaluation of the LPG lookup on demoTable. -/
theorem ef_demo_lpg :
    ef demoTable "fuel" (some "lpg_L") none = .ok (PyFloat.finite 1) := by
  simp +decide [ef, efCandidates, demoTable, mkRow, parse_one]

/-- Evaluation of the natural-gas lookup on demoTable. -/
theorem ef_demo_ng :
    ef demoTable "fuel" (some "natural_gas_MJ") none = .ok (PyFloat.finite 1) := by
  simp +decide [ef, efCandidates, demoTable, mkRow, parse_one]

/-- Evaluation of the petrol lookup on demoTable. -/
theorem ef_demo_pet :
    ef demoTable "fuel" (some "petrol_L") none = .ok (PyFloat.finite 1) := by
  simp +decide [ef, efCandidates, demoTable, mkRow, parse_one]

/-- Evaluation of the diesel lookup on demoTable. -/
theorem ef_demo_dsl :
    ef demoTable "fuel" (some "diesel_L") none = .ok (PyFloat.finite 1) := by
  simp +decide [ef, efCandidates, demoTable, mkRow, parse_one]

/-- Evaluation of the src/app.py calculation on the electricity
scenario input over demoTable. -/
theorem compute_demo : compute demoTable demoInput = .ok demoResult := by
  simp [compute, Except.bind, ef_demo_elec, ef_demo_iso, ef_demo_sev, ef_demo_des,
    ef_demo_n2o, ef_demo_lpg, ef_demo_ng, ef_demo_pet, ef_demo_dsl, demoInput,
    demoResult, PyFloat.mul, PyFloat.add, PyFloat.divPos]
  norm_num

/-- Evaluation of the src/app_original.py calculation (anaesthetics
included) on the electricity scenario input over demoTable. -/
theorem computeO_demo : computeOriginal demoTable demoInput true = .ok demoResultO := by
  simp [computeOriginal, Except.bind, ef_demo_elec, ef_demo_iso, ef_demo_sev,
    ef_demo_des, ef_demo_n2o, ef_demo_lpg, ef_demo_ng, ef_demo_pet, ef_demo_dsl,
    demoInput, demoResultO, PyFloat.mul, PyFloat.add, PyFloat.divPos]
  norm_num

/-- Evaluation of the src/app.py calculation on the all-zero input with
zero FTE. -/
theorem compute_zero_fte0 :
    compute demoTable (zeroQuantities "NSW" 0) = .ok zeroResult := by
  simp [compute, Except.bind, ef_demo_elec, ef_demo_iso, ef_demo_sev, ef_demo_des,
    ef_demo_n2o, ef_demo_lpg, ef_demo_ng, ef_demo_pet, ef_demo_dsl, zeroQuantities,
    zeroResult, PyFloat.mul, PyFloat.add, PyFloat.divPos]

/-- Evaluation of the src/app.py calculation on the all-zero input with
an FTE of 2. -/
theorem compute_zero_fte2 :
    compute demoTable (zeroQuantities "NSW" 2) = .ok zeroResult := by
  simp [compute, Except.bind, ef_demo_elec, ef_demo_iso, ef_demo_sev, ef_demo_des,
    ef_demo_n2o, ef_demo_lpg, ef_demo_ng, ef_demo_pet, ef_demo_dsl, zeroQuantities,
    zeroResult, PyFloat.mul, PyFloat.add, PyFloat.divPos]

/-- C3 (counterexample): the factor cell "inf" cannot be parsed as a
finite real number, yet the lookup does not fail with
InvalidFactorError: Python float conversion accepts "inf" and the
lookup returns positive infinity. -/
theorem c3_counterexample :
    ef infTable "fuel" (some "petrol_L") none = .ok PyFloat.pinf ∧
    parsePyFloat "inf" = some PyFloat.pinf ∧
    PyFloat.pinf.isFinite = false := by
  refine ⟨?_, parse_inf, rfl⟩
  simp +decide [ef, efCandidates, infTable, mkRow, parse_inf]

/-- C3 (amended): when the key matches at least one row, the lookup
fails with InvalidFactorError carrying the raw cell value and the
requested key exactly when the first matching row's factor cell fails
Python float conversion; when conversion succeeds the lookup returns
the converted value, which may be a non-finite float. -/
theorem c3_lookup_parse_behavior (factors : List Row) (cat : String) (sub st : Option String)
    (r : Row) (rest : List Row)
    (hc : efCandidates factors cat sub st = r :: rest) :
    (parsePyFloat r.factor = none →
      ef factors cat sub st = .error (.invalidFactor cat sub st r.factor)) ∧
    (∀ v, parsePyFloat r.factor = some v → ef factors cat sub st = .ok v) := by
  constructor
  · intro hp
    simp [ef, hc, hp]
  · intro v hp
    simp [ef, hc, hp]

/-- C3 (witness): on a table whose petrol row has the malformed factor
cell "N/A", the lookup fails with InvalidFactorError carrying "N/A"
and the requested key. -/
theorem c3_witness :
    ef naTable "fuel" (some "petrol_L") none =
      .error (.invalidFactor "fuel" (some "petrol_L") none "N/A") := by
  have hc : efCandidates naTable "fuel" (some "petrol_L") none =
      [mkRow "fuel" "petrol_L" "L" "N/A" ""] := by
    simp +decide [efCandidates, naTable, mkRow]
  exact (c3_lookup_parse_behavior naTable "fuel" (some "petrol_L") none
    (mkRow "fuel" "petrol_L" "L" "N/A" "") [] hc).1 parse_NA

/-- C4: when rows with the same key appear more than once, the lookup
returns the Python float conversion of the FIRST matching row in table
order, whatever any later matching row carries; the tie-break is
deterministic and is not an error. -/
theorem c4_first_match_wins (pre mid post : List Row) (r1 r2 : Row) (cat : String)
    (sub st : Option String) (v : PyFloat)
    (hpre : ∀ r ∈ pre, matchesRow r cat sub st = false)
    (h1 : matchesRow r1 cat sub st = true)
    (_h2 : matchesRow r2 cat sub st = true)
    (hv : parsePyFloat r1.factor = some v) :
    ef (pre ++ r1 :: (mid ++ r2 :: post)) cat sub st = .ok v := by
  have hpre2 : pre.filter (fun r => matchesRow r cat sub st) = [] := by
    rw [List.filter_eq_nil_iff]
    intro r hr
    simp [hpre r hr]
  have hc : efCandidates (pre ++ r1 :: (mid ++ r2 :: post)) cat sub st =
      r1 :: (mid ++ r2 :: post).filter (fun r => matchesRow r cat sub st) := by
    rw [efCandidates_eq]
    simp [List.filter_append, hpre2, h1]
  simp [ef, hc, hv]

/-- C4 (witness): with two NSW electricity rows carrying the different
factors 0.79 and 1, the lookup returns 0.79, the factor of the row that
appears first. -/
theorem c4_witness :
    ef dupTable "electricity" none (some "NSW") = .ok (PyFloat.finite (79 / 100)) := by
  have h := c4_first_match_wins [] [] [] (mkRow "electricity" "" "kWh" "0.79" "NSW")
    (mkRow "electricity" "" "kWh" "1" "NSW") "electricity" none (some "NSW")
    (PyFloat.finite (79 / 100)) (by simp) (by decide) (by decide) parse_079
  simpa [dupTable, mkRow] using h

/-- C8: the candidate rows of a lookup are exactly the rows equal on
the provided key fields (filters for unsupplied fields being skipped),
and when no row matches, the lookup fails with NotFoundError carrying
exactly the requested (category, subcategory, state) tuple. -/
theorem c8_lookup_filter_notFound (factors : List Row) (cat : String) (sub st : Option String) :
    efCandidates factors cat sub st = factors.filter (fun r => matchesRow r cat sub st) ∧
    (factors.filter (fun r => matchesRow r cat sub st) = [] →
      ef factors cat sub st = .error (.notFound cat sub st)) := by
  refine ⟨efCandidates_eq factors cat sub st, fun h => ?_⟩
  unfold ef
  rw [efCandidates_eq, h]

/-- C8 (witness): looking up fuel/diesel_L with no state against a table
with no diesel_L row yields NotFoundError with exactly that tuple. -/
theorem c8_witness :
    ef missTable "fuel" (some "diesel_L") none =
      .error (.notFound "fuel" (some "diesel_L") none) :=
  (c8_lookup_filter_notFound missTable "fuel" (some "diesel_L") none).2 (by decide)

/-- C9: the missing-column list contains exactly the required columns
absent from the table's column set (so extra columns are irrelevant);
if any required column is absent the load fails with a SchemaError
naming that list, and if all seven are present the load succeeds. -/
theorem c9_schema_check (columns : List String) (rows : List Row) :
    (∀ c, c ∈ missingCols columns ↔ (c ∈ required_cols ∧ columns.contains c = false)) ∧
    ((∃ c ∈ required_cols, columns.contains c = false) →
      loadFactors columns rows = .error ⟨missingCols columns⟩) ∧
    ((∀ c ∈ required_cols, columns.contains c = true) →
      loadFactors columns rows = .ok rows) := by
  refine ⟨fun c => ?_, fun ⟨c, hc, hnc⟩ => ?_, fun h => ?_⟩
  · simp [missingCols, List.mem_filter]
  · have hnc2 : c ∉ columns := by simp_all
    have hm : c ∈ missingCols columns := by
      simp [missingCols, List.mem_filter, hc, hnc2]
    have hne : missingCols columns ≠ [] := List.ne_nil_of_mem hm
    simp [loadFactors, hne]
  · have hnil : missingCols columns = [] := by
      rw [missingCols, List.filter_eq_nil_iff]
      intro c hc
      have := h c hc
      simp_all
    simp [loadFactors, hnil]

/-- C9 (witness): a column set missing only "factor" but carrying two
extra columns fails the load with a SchemaError naming exactly
["factor"]. -/
theorem c9_witness : loadFactors schemaColumns [] = .error ⟨["factor"]⟩ := by
  have h := (c9_schema_check schemaColumns []).2.1 ⟨"factor", by decide, by decide⟩
  rw [h]
  have hm : missingCols schemaColumns = ["factor"] := by decide
  rw [hm]

/-- C5: with the anaesthetics checkbox off, the src/app_original.py
calculation is unchanged by deleting every anaes row from the table
(no anaesthetic lookup is attempted), and whenever the five
non-anaesthetic lookups succeed the calculation succeeds with an
anaesthetics contribution of exactly 0.0. -/
theorem c5_anaes_excluded (factors : List Row) (inp : ActivityInput) :
    computeOriginal factors inp false =
      computeOriginal (factors.filter (fun r => !(r.category == "anaes"))) inp false ∧
    ((∀ k ∈ nonAnaesKeys inp.state, ∃ v, efKey factors k = .ok v) →
      ∃ r, computeOriginal factors inp false = .ok r ∧
        r.scope1_anaes = PyFloat.finite 0) := by
  constructor
  · have hp : ∀ cat : String, cat = "electricity" ∨ cat = "fuel" → ∀ r : Row,
        (r.category == cat) = true → (!(r.category == "anaes")) = true := by
      intro cat hcat r h
      rw [beq_iff_eq] at h
      rcases hcat with rfl | rfl <;> (rw [h]; decide)
    have e1 := ef_filter_indep factors "electricity" none (some inp.state)
      (fun r => !(r.category == "anaes")) (hp "electricity" (Or.inl rfl))
    have e2 := ef_filter_indep factors "fuel" (some "petrol_L") none
      (fun r => !(r.category == "anaes")) (hp "fuel" (Or.inr rfl))
    have e3 := ef_filter_indep factors "fuel" (some "diesel_L") none
      (fun r => !(r.category == "anaes")) (hp "fuel" (Or.inr rfl))
    have e4 := ef_filter_indep factors "fuel" (some "lpg_L") none
      (fun r => !(r.category == "anaes")) (hp "fuel" (Or.inr rfl))
    have e5 := ef_filter_indep factors "fuel" (some "natural_gas_MJ") none
      (fun r => !(r.category == "anaes")) (hp "fuel" (Or.inr rfl))
    simp only [computeOriginal, e1, e2, e3, e4, e5, Bool.false_eq_true, if_false]
  · intro h
    cases hc : computeOriginal factors inp false with
    | ok r =>
      obtain ⟨_, _, _, _, _, -, -, -, -, -, ha, -, -, -, -⟩ :=
        computeOriginal_false_ok_inv factors inp r hc
      exact ⟨r, rfl, ha⟩
    | error e =>
      obtain ⟨k, hk, he⟩ := computeOriginal_false_error_inv factors inp e hc
      obtain ⟨v, hv⟩ := h k hk
      rw [hv] at he
      exact absurd he (by simp)

/-- C5 (witness): on a table with no anaes rows at all, the calculation
with the checkbox off succeeds and reports an anaesthetics contribution
of 0.0. -/
theorem c5_witness :
    ∃ r, computeOriginal noAnaesTable demoInput false = .ok r ∧
      r.scope1_anaes = PyFloat.finite 0 :=
  (c5_anaes_excluded noAnaesTable demoInput).2 (by
    intro k hk
    simp only [nonAnaesKeys, List.mem_cons, List.not_mem_nil, or_false] at hk
    rcases hk with rfl | rfl | rfl | rfl | rfl
    · exact ⟨PyFloat.finite (79 / 100), by simp +decide [efKey, ef, efCandidates,
        noAnaesTable, mkRow, demoInput, parse_079]⟩
    · exact ⟨PyFloat.finite 1, by simp +decide [efKey, ef, efCandidates, noAnaesTable,
        mkRow, parse_one]⟩
    · exact ⟨PyFloat.finite 1, by simp +decide [efKey, ef, efCandidates, noAnaesTable,
        mkRow, parse_one]⟩
    · exact ⟨PyFloat.finite 1, by simp +decide [efKey, ef, efCandidates, noAnaesTable,
        mkRow, parse_one]⟩
    · exact ⟨PyFloat.finite 1, by simp +decide [efKey, ef, efCandidates, noAnaesTable,
        mkRow, parse_one]⟩)

/-- C6: the calculation looks a factor up for every activity even when
its entered quantity is zero: on the all-zero input, a factor key that
fails to look up (missing or malformed) still makes the whole
calculation fail. -/
theorem c6_zero_quantity_strict (factors : List Row) (st : String) (fte : ℚ)
    (k : String × Option String × Option String) (e : EfError)
    (hk : k ∈ allKeys st) (he : efKey factors k = .error e) :
    ∃ e2, compute factors (zeroQuantities st fte) = .error e2 := by
  cases hc : compute factors (zeroQuantities st fte) with
  | error e2 => exact ⟨e2, rfl⟩
  | ok r =>
    obtain ⟨fe, fi, fs, fd, fn, fl, fg, fp, fdl, hfe, hfi, hfs, hfd, hfn, hfl, hfg,
      hfp, hfdl, -, -, -, -, -, -, -⟩ :=
      compute_ok_inv factors (zeroQuantities st fte) r hc
    simp only [allKeys, List.mem_cons, List.not_mem_nil, or_false] at hk
    rcases hk with rfl | rfl | rfl | rfl | rfl | rfl | rfl | rfl | rfl <;>
      simp_all [efKey, zeroQuantities]

/-- C6 (witness): on the table lacking the diesel_L row, the all-zero
input still fails the calculation, because the diesel lookup is
performed despite the zero quantity. -/
theorem c6_witness :
    ∃ e2, compute badTable (zeroQuantities "NSW" 10) = .error e2 :=
  c6_zero_quantity_strict badTable "NSW" 10 ("fuel", some "diesel_L", none)
    (.notFound "fuel" (some "diesel_L") none)
    (by simp [allKeys])
    (by simp +decide [efKey, ef, efCandidates, badTable, mkRow])

/-- C7: the calculation of src/app.py succeeds exactly when all nine
lookups succeed — a lookup failure aborts the whole calculation with no
partial result — and when it fails, the reported error is the error of
one of the nine lookups it performed. -/
theorem c7_error_propagation (factors : List Row) (inp : ActivityInput) :
    ((∃ r, compute factors inp = .ok r) ↔
      ∀ k ∈ allKeys inp.state, ∃ v, efKey factors k = .ok v) ∧
    (∀ e, compute factors inp = .error e →
      ∃ k ∈ allKeys inp.state, efKey factors k = .error e) := by
  refine ⟨⟨fun hr => ?_, compute_ok_of_lookups factors inp⟩,
    fun e he => compute_error_inv factors inp e he⟩
  obtain ⟨r, hr⟩ := hr
  obtain ⟨fe, fi, fs, fd, fn, fl, fg, fp, fdl, hfe, hfi, hfs, hfd, hfn, hfl, hfg,
    hfp, hfdl, -, -, -, -, -, -, -⟩ := compute_ok_inv factors inp r hr
  intro k hk
  simp only [allKeys, List.mem_cons, List.not_mem_nil, or_false] at hk
  rcases hk with rfl | rfl | rfl | rfl | rfl | rfl | rfl | rfl | rfl
  exacts [⟨fe, hfe⟩, ⟨fi, hfi⟩, ⟨fs, hfs⟩, ⟨fd, hfd⟩, ⟨fn, hfn⟩, ⟨fl, hfl⟩,
    ⟨fg, hfg⟩, ⟨fp, hfp⟩, ⟨fdl, hfdl⟩]

/-- C7 (witness): over the complete demo table, every lookup succeeds
and hence the calculation produces a result. -/
theorem c7_witness : ∃ r, compute demoTable demoInput = .ok r :=
  (c7_error_propagation demoTable demoInput).1.mpr (by
    intro k hk
    simp only [allKeys, List.mem_cons, List.not_mem_nil, or_false] at hk
    rcases hk with rfl | rfl | rfl | rfl | rfl | rfl | rfl | rfl | rfl
    exacts [⟨_, ef_demo_elec⟩, ⟨_, ef_demo_iso⟩, ⟨_, ef_demo_sev⟩, ⟨_, ef_demo_des⟩,
      ⟨_, ef_demo_n2o⟩, ⟨_, ef_demo_lpg⟩, ⟨_, ef_demo_ng⟩, ⟨_, ef_demo_pet⟩,
      ⟨_, ef_demo_dsl⟩])

/-- C1: on every successful calculation, each line contribution is the
quantity times its looked-up factor, each scope-1 group field is the
sum of its line contributions, the scope-1 total is the sum of all
eight scope-1 line contributions, the scope-2 total is the electricity
contribution, and the grand total is scope-1 total plus scope-2 total. -/
theorem c1_totals (factors : List Row) (inp : ActivityInput) (r : EmissionResult)
    (fe fi fs fd fn fl fg fp fdl : PyFloat)
    (h : compute factors inp = .ok r)
    (hfe : ef factors "electricity" none (some inp.state) = .ok fe)
    (hfi : ef factors "anaes" (some "isoflurane_g") none = .ok fi)
    (hfs : ef factors "anaes" (some "sevoflurane_g") none = .ok fs)
    (hfd : ef factors "anaes" (some "desflurane_g") none = .ok fd)
    (hfn : ef factors "anaes" (some "n2o_g") none = .ok fn)
    (hfl : ef factors "fuel" (some "lpg_L") none = .ok fl)
    (hfg : ef factors "fuel" (some "natural_gas_MJ") none = .ok fg)
    (hfp : ef factors "fuel" (some "petrol_L") none = .ok fp)
    (hfdl : ef factors "fuel" (some "diesel_L") none = .ok fdl) :
    r.scope2_electricity = (PyFloat.finite inp.elec_kwh).mul fe ∧
    r.scope1_anaes = sumPF [(PyFloat.finite inp.iso_g).mul fi,
      (PyFloat.finite inp.sev_g).mul fs, (PyFloat.finite inp.des_g).mul fd,
      (PyFloat.finite inp.n2o_g).mul fn] ∧
    r.scope1_gas = sumPF [(PyFloat.finite inp.lpg_L).mul fl,
      (PyFloat.finite inp.natgas_MJ).mul fg] ∧
    r.scope1_vehicles = sumPF [(PyFloat.finite inp.petrol_L).mul fp,
      (PyFloat.finite inp.diesel_L).mul fdl] ∧
    r.scope1_total = sumPF [(PyFloat.finite inp.iso_g).mul fi,
      (PyFloat.finite inp.sev_g).mul fs, (PyFloat.finite inp.des_g).mul fd,
      (PyFloat.finite inp.n2o_g).mul fn, (PyFloat.finite inp.lpg_L).mul fl,
      (PyFloat.finite inp.natgas_MJ).mul fg, (PyFloat.finite inp.petrol_L).mul fp,
      (PyFloat.finite inp.diesel_L).mul fdl] ∧
    r.total = r.scope1_total.add r.scope2_electricity := by
  obtain ⟨fe2, fi2, fs2, fd2, fn2, fl2, fg2, fp2, fdl2, hfe2, hfi2, hfs2, hfd2, hfn2,
    hfl2, hfg2, hfp2, hfdl2, ha, hg, hv, ht, he2, htot, -⟩ :=
    compute_ok_inv factors inp r h
  obtain rfl := Except.ok.inj (hfe2.symm.trans hfe)
  obtain rfl := Except.ok.inj (hfi2.symm.trans hfi)
  obtain rfl := Except.ok.inj (hfs2.symm.trans hfs)
  obtain rfl := Except.ok.inj (hfd2.symm.trans hfd)
  obtain rfl := Except.ok.inj (hfn2.symm.trans hfn)
  obtain rfl := Except.ok.inj (hfl2.symm.trans hfl)
  obtain rfl := Except.ok.inj (hfg2.symm.trans hfg)
  obtain rfl := Except.ok.inj (hfp2.symm.trans hfp)
  obtain rfl := Except.ok.inj (hfdl2.symm.trans hfdl)
  refine ⟨he2, ?_, ?_, ?_, ?_, htot⟩
  · rw [ha]
    simp only [sumPF, List.foldl, PyFloat.add_def, PyFloat.zero_def]
    abel
  · rw [hg]
    simp only [sumPF, List.foldl, PyFloat.add_def, PyFloat.zero_def]
    abel
  · rw [hv]
    simp only [sumPF, List.foldl, PyFloat.add_def, PyFloat.zero_def]
    abel
  · rw [ht, ha, hg, hv]
    simp only [sumPF, List.foldl, PyFloat.add_def, PyFloat.zero_def]
    abel

/-- C1 (witness): on the spec's electricity scenario (factor 0.79 for
NSW, 1000 kWh, all other quantities zero), the scope-2 contribution is
1000 times the looked-up 0.79, namely 790.0, and the grand total is
scope-1 total plus scope-2 total. -/
theorem c1_witness :
    compute demoTable demoInput = .ok demoResult ∧
    demoResult.scope2_electricity =
      (PyFloat.finite 1000).mul (PyFloat.finite (79 / 100)) ∧
    demoResult.scope2_electricity = PyFloat.finite 790 ∧
    demoResult.total = demoResult.scope1_total.add demoResult.scope2_electricity := by
  have h := c1_totals demoTable demoInput demoResult (PyFloat.finite (79 / 100))
    (PyFloat.finite 1) (PyFloat.finite 1) (PyFloat.finite 1) (PyFloat.finite 1)
    (PyFloat.finite 1) (PyFloat.finite 1) (PyFloat.finite 1) (PyFloat.finite 1)
    compute_demo ef_demo_elec ef_demo_iso ef_demo_sev ef_demo_des ef_demo_n2o
    ef_demo_lpg ef_demo_ng ef_demo_pet ef_demo_dsl
  exact ⟨compute_demo, h.1, rfl, h.2.2.2.2.2⟩

/-- C2 (counterexample): the result record carries no intensity-defined
flag: the all-zero input with zero FTE (intensity undefined) and the
all-zero input with an FTE of 2 (a genuine zero intensity) produce
exactly the same result record, so the sentinel 0.0 is not
distinguishable from a genuine zero-intensity result. -/
theorem c2_counterexample :
    (zeroQuantities "NSW" 0).fte = 0 ∧
    0 < (zeroQuantities "NSW" 2).fte ∧
    compute demoTable (zeroQuantities "NSW" 0) =
      compute demoTable (zeroQuantities "NSW" 2) ∧
    compute demoTable (zeroQuantities "NSW" 2) = .ok zeroResult := by
  refine ⟨rfl, by norm_num [zeroQuantities], ?_, compute_zero_fte2⟩
  rw [compute_zero_fte0, compute_zero_fte2]

/-- C2 (amended): on every successful calculation, when the FTE is zero
the intensity field holds the sentinel 0.0 (the record carries no
separate defined flag), and when the FTE is positive the intensity is
exactly the grand total divided by the FTE. -/
theorem c2_intensity (factors : List Row) (inp : ActivityInput) (r : EmissionResult)
    (h : compute factors inp = .ok r) :
    (inp.fte = 0 → r.intensity_per_fte = PyFloat.finite 0) ∧
    (0 < inp.fte → r.intensity_per_fte = r.total.divPos inp.fte) := by
  obtain ⟨fe, fi, fs, fd, fn, fl, fg, fp, fdl, -, -, -, -, -, -, -, -, -, -, -, -, -,
    -, -, hi⟩ := compute_ok_inv factors inp r h
  exact ⟨fun h0 => by simp [hi, h0], fun hpos => by simp [hi, hpos]⟩

/-- C2 (amended, witness): on the demo scenario with 10 FTE the
intensity is the grand total divided by 10, namely 79.0. -/
theorem c2_witness :
    demoResult.intensity_per_fte = demoResult.total.divPos demoInput.fte ∧
    demoResult.intensity_per_fte = PyFloat.finite 79 :=
  ⟨(c2_intensity demoTable demoInput demoResult compute_demo).2
    (by norm_num [demoInput]), rfl⟩

/-- C10: whenever both source variants' calculations succeed on the
same table and input, with anaesthetics included in the original
variant, the two variants report the same scope-1 total and the same
grand total: they sum the same quantity-times-factor terms, only
grouped differently. -/
theorem c10_variants_agree (factors : List Row) (inp : ActivityInput)
    (r1 : EmissionResult) (r2 : EmissionResultO)
    (h1 : compute factors inp = .ok r1)
    (h2 : computeOriginal factors inp true = .ok r2) :
    r1.scope1_total = r2.scope1_total ∧ r1.total = r2.total := by
  obtain ⟨fe, fi, fs, fd, fn, fl, fg, fp, fdl, hfe, hfi, hfs, hfd, hfn, hfl, hfg,
    hfp, hfdl, ha, hg, hv, ht, he, htot, -⟩ := compute_ok_inv factors inp r1 h1
  obtain ⟨fe2, fp2, fdl2, fl2, fg2, fi2, fs2, fd2, fn2, hfe2, hfp2, hfdl2, hfl2,
    hfg2, hfi2, hfs2, hfd2, hfn2, hF, hA, hT, hE, hTot, -⟩ :=
    computeOriginal_true_ok_inv factors inp r2 h2
  obtain rfl := Except.ok.inj (hfe2.symm.trans hfe)
  obtain rfl := Except.ok.inj (hfp2.symm.trans hfp)
  obtain rfl := Except.ok.inj (hfdl2.symm.trans hfdl)
  obtain rfl := Except.ok.inj (hfl2.symm.trans hfl)
  obtain rfl := Except.ok.inj (hfg2.symm.trans hfg)
  obtain rfl := Except.ok.inj (hfi2.symm.trans hfi)
  obtain rfl := Except.ok.inj (hfs2.symm.trans hfs)
  obtain rfl := Except.ok.inj (hfd2.symm.trans hfd)
  obtain rfl := Except.ok.inj (hfn2.symm.trans hfn)
  have hs1 : r1.scope1_total = r2.scope1_total := by
    rw [ht, ha, hg, hv, hT, hF, hA]
    simp only [PyFloat.add_def, PyFloat.zero_def]
    abel
  refine ⟨hs1, ?_⟩
  rw [htot, hTot, hs1, he, hE]

/-- C10 (witness): on the demo table and the electricity scenario
input, both variants report scope-1 total 0.0 and grand total 790.0. -/
theorem c10_witness :
    demoResult.scope1_total = demoResultO.scope1_total ∧
    demoResult.total = demoResultO.total :=
  c10_variants_agree demoTable demoInput demoResult demoResultO
    compute_demo computeO_demo
